import Mathlib

/- Shallow embedding of `src/weather_api/main.py`: a batch job that fetches
current temperatures for a fixed registry of Indian states and union
territories, persists the snapshot (JSON overwrite + CSV history append),
and renders a choropleth map.  Network responses, the filesystem and the
geometry library (shapely/geopandas) are modelled as explicit inputs;
Python floats are modelled as rationals plus a distinguished NaN value. -/

namespace WeatherApi

/-- A Python value as it can appear in a decoded JSON body or in the
`results` dictionary: `None`, `math.nan`, a number, a bool, a string,
a list or a dict. -/
inductive PyVal : Type where
  | none : PyVal
  | nan : PyVal
  | num : ℚ → PyVal
  | bool : Bool → PyVal
  | str : String → PyVal
  | list : List PyVal → PyVal
  | dict : List (String × PyVal) → PyVal

/-- The Python exceptions that the modelled code paths can raise. -/
inductive PyError : Type where
  | requestException : String → PyError
  | httpStatusError : Nat → PyError
  | jsonDecodeError : PyError
  | attributeError : PyError
  | typeError : PyError
  | valueError : List String → PyError
  | fileNotFoundError : String → PyError
deriving DecidableEq

/-- Outcome of one HTTP exchange with the weather API, as seen by
`requests.get`: a transport-level error, or a response with a status code
and a body (`Option.none` body = the body is not valid JSON, so `r.json()`
raises). -/
inductive NetOutcome : Type where
  | netError : String → NetOutcome
  | response : Nat → Option PyVal → NetOutcome

/-- The query parameters sent by `get_current_temp` (the `params` dict of
the single `requests.get` call). -/
structure HttpRequest where
  latitude : ℚ
  longitude : ℚ
  current_weather : String
  timezone : String
deriving DecidableEq

-- ==========================
-- CONFIG (src lines 16-57)
-- ==========================

/-- `STATE_CENTROIDS`: the registry, a mapping from region name to an
approximate (latitude, longitude) centroid, in source order. -/
def STATE_CENTROIDS : List (String × ℚ × ℚ) := [
  ("Andhra Pradesh", 15.9129, 79.74),
  ("Arunachal Pradesh", 28.2180, 94.7278),
  ("Assam", 26.2006, 92.9376),
  ("Bihar", 25.0961, 85.3131),
  ("Chhattisgarh", 21.2787, 81.8661),
  ("Delhi", 28.7041, 77.1025),
  ("Goa", 15.2993, 74.1240),
  ("Gujarat", 22.2587, 71.1924),
  ("Haryana", 29.0588, 76.0856),
  ("Himachal Pradesh", 31.1048, 77.1734),
  ("Jharkhand", 23.6102, 85.2799),
  ("Karnataka", 15.3173, 75.7139),
  ("Kerala", 10.8505, 76.2711),
  ("Madhya Pradesh", 22.9734, 78.6569),
  ("Maharashtra", 19.7515, 75.7139),
  ("Manipur", 24.6637, 93.9063),
  ("Meghalaya", 25.4670, 91.3662),
  ("Mizoram", 23.1645, 92.9376),
  ("Nagaland", 26.1584, 94.5624),
  ("Odisha", 20.9517, 85.0985),
  ("Punjab", 31.1471, 75.3412),
  ("Rajasthan", 27.0238, 74.2179),
  ("Sikkim", 27.5330, 88.5122),
  ("Tamil Nadu", 11.1271, 78.6569),
  ("Telangana", 18.1124, 79.0193),
  ("Tripura", 23.9408, 91.9882),
  ("Uttar Pradesh", 26.8467, 80.9462),
  ("Uttarakhand", 30.0668, 79.0193),
  ("West Bengal", 22.9868, 87.8550),
  ("Andaman and Nicobar Islands", 11.7401, 92.6586),
  ("Chandigarh", 30.7333, 76.7794),
  ("D&D", 20.1809, 73.0169),
  ("Jammu and Kashmir", 33.7782, 76.5762),
  ("Ladakh", 34.1526, 77.5770),
  ("Lakshadweep", 10.5667, 72.6417),
  ("Puducherry", 11.9416, 79.8083)]

-- ==========================
-- Weather Fetcher (src lines 63-74)
-- ==========================

/-- `get_current_temp(lat, lon)`: issues one `requests.get` with the fixed
params, calls `raise_for_status()` (4xx/5xx raise), decodes JSON (decode
failure raises), then evaluates
`data.get("current_weather", {}).get("temperature")` — which returns the
field, returns `None` when the key chain is absent, and raises
`AttributeError` when an intermediate value is not a dict.  The second
component is the list of HTTP requests actually issued (always exactly
one: the function never retries). -/
def get_current_temp (lat lon : ℚ) (net : NetOutcome) :
    Except PyError PyVal × List HttpRequest :=
  let req : HttpRequest :=
    { latitude := lat, longitude := lon, current_weather := "true", timezone := "auto" }
  let result : Except PyError PyVal :=
    match net with
    | NetOutcome.netError m => Except.error (PyError.requestException m)
    | NetOutcome.response status body =>
      if 400 ≤ status ∧ status ≤ 599 then Except.error (PyError.httpStatusError status)
      else
        match body with
        | Option.none => Except.error PyError.jsonDecodeError
        | Option.some data =>
          match data with
          | PyVal.dict fields =>
            match fields.lookup "current_weather" with
            | Option.none => Except.ok PyVal.none
            | Option.some cw =>
              match cw with
              | PyVal.dict cwFields =>
                Except.ok ((cwFields.lookup "temperature").getD PyVal.none)
              | _ => Except.error PyError.attributeError
          | _ => Except.error PyError.attributeError
  (result, [req])

/-- The value/exception outcome of one fetch, independent of the
coordinates sent (the coordinates only shape the request, not the
extraction of the response). -/
def fetch_outcome (net : NetOutcome) : Except PyError PyVal :=
  (get_current_temp 0 0 net).1

-- ==========================
-- Python string formatting used by the collector loop
-- ==========================

/-- Left-pad a string with spaces to a given width (Python `>` alignment). -/
def padLeft (s : String) (w : Nat) : String :=
  if s.length < w then String.mk (List.replicate (w - s.length) ' ') ++ s else s

/-- Right-pad a string with spaces to a given width (Python `<` alignment). -/
def padRight (s : String) (w : Nat) : String :=
  if s.length < w then s ++ String.mk (List.replicate (w - s.length) ' ') else s

/-- Zero-pad the decimal digits of a natural number to a given width. -/
def padZeros (n : Nat) (w : Nat) : String :=
  let s := toString n
  if s.length < w then String.mk (List.replicate (w - s.length) '0') ++ s else s

/-- Drop trailing `0` characters (used when printing decimal fractions). -/
def stripTrailingZeros (s : String) : String :=
  let l := (s.data.reverse.dropWhile (fun c => c == '0')).reverse
  if l.isEmpty then "0" else String.mk l

/-- Decimal rendering of a rational, approximating Python `str(float)` on
the values that occur here (integers print with `.0`, denominators that
divide 10000 print as finite decimals). -/
def ratStr (q : ℚ) : String :=
  if q.den = 1 then toString q.num ++ ".0"
  else if (10000 : ℤ) % (q.den : ℤ) = 0 then
    let m : ℤ := q.num * ((10000 : ℤ) / (q.den : ℤ))
    let sign := if m < 0 then "-" else ""
    let a := m.natAbs
    sign ++ toString (a / 10000) ++ "." ++ stripTrailingZeros (padZeros (a % 10000) 4)
  else toString q

/-- Python `str()` of a value, as used inside f-string interpolation. -/
def pyStr : PyVal → String
  | PyVal.none => "None"
  | PyVal.nan => "nan"
  | PyVal.num q => ratStr q
  | PyVal.bool b => if b then "True" else "False"
  | PyVal.str s => s
  | PyVal.list _ => "<list>"
  | PyVal.dict _ => "<dict>"

/-- Python `format(v, ">w")`.  `object.__format__` (inherited by `None`,
dicts and lists) raises `TypeError` on any non-empty format spec; floats,
strings and bools (as ints) right-align. -/
def formatAlignRight (v : PyVal) (w : Nat) : Except PyError String :=
  match v with
  | PyVal.none => Except.error PyError.typeError
  | PyVal.dict _ => Except.error PyError.typeError
  | PyVal.list _ => Except.error PyError.typeError
  | PyVal.nan => Except.ok (padLeft "nan" w)
  | PyVal.num q => Except.ok (padLeft (ratStr q) w)
  | PyVal.str s => Except.ok (padLeft s w)
  | PyVal.bool b => Except.ok (padLeft (if b then "1" else "0") w)

/-- Evaluation of the f-string `f"{state:<35} {temp:>6} °C"` printed
inside the collector's try block (src line 169): raises whenever
formatting `temp` with the `>6` spec raises. -/
def print_line (state : String) (temp : PyVal) : Except PyError String :=
  match formatAlignRight temp 6 with
  | Except.error e => Except.error e
  | Except.ok t => Except.ok (padRight state 35 ++ " " ++ t ++ " °C")

-- ==========================
-- Collector (src lines 162-172)
-- ==========================

/-- The successive values assigned to `results[state]` by one iteration of
the collector loop: on a fetch exception the except branch assigns
`math.nan`; on a fetch result the value is stored and, if the progress
print then raises (e.g. `TypeError` formatting `None`), the except branch
overwrites it with `math.nan`. -/
def loop_body_assignments (state : String) (fr : Except PyError PyVal) : List PyVal :=
  match fr with
  | Except.error _ => [PyVal.nan]
  | Except.ok temp =>
    match print_line state temp with
    | Except.error _ => [temp, PyVal.nan]
    | Except.ok _ => [temp]

/-- The final value `results[state]` holds after one iteration of the
collector loop. -/
def collectOne (state : String) (fr : Except PyError PyVal) : PyVal :=
  match fr with
  | Except.error _ => PyVal.nan
  | Except.ok temp =>
    match print_line state temp with
    | Except.error _ => PyVal.nan
    | Except.ok _ => temp

/-- One registry entry processed by the collector loop. -/
def collectEntry (net : String → NetOutcome) (p : String × ℚ × ℚ) : String × PyVal :=
  (p.1, collectOne p.1 (get_current_temp p.2.1 p.2.2 (net p.1)).1)

/-- The collector loop of `main` (src lines 162-172): iterates the
registry in order, fetching each region's temperature against the
network's per-region outcome, and builds the `results` dictionary. -/
def runCollector (net : String → NetOutcome) : List (String × PyVal) :=
  STATE_CENTROIDS.map (collectEntry net)

-- ==========================
-- Map Renderer (src lines 77-156)
-- ==========================

/-- The geometry operations delegated to shapely/geopandas: merging two
polygons (used by `dissolve`) and taking a polygon's centroid.  They are
external library calls, so they are inputs of the model. -/
structure GeomLib (G : Type) where
  unionG : G → G → G
  centroid : G → ℚ × ℚ

/-- One feature of the boundary GeoJSON: its property columns (as strings)
and its geometry. -/
structure BoundaryRow (G : Type) where
  props : List (String × String)
  geom : G

/-- The boundary dataset loaded by `gpd.read_file`: the available columns
and the feature rows. -/
structure BoundaryData (G : Type) where
  columns : List String
  rows : List (BoundaryRow G)

/-- The rename applied to the `state_name` column (src lines 90-92):
`"Dadra and Nagar Haveli and Daman and Diu"` becomes `"D&D"`, every other
name is unchanged. -/
def renameStateName (s : String) : String :=
  if s = "Dadra and Nagar Haveli and Daman and Diu" then "D&D" else s

/-- Python's `str` ordering: lexicographic comparison of code points
(the order pandas uses for its group keys). -/
def strLtb : List Char → List Char → Bool
  | [], [] => false
  | [], _ :: _ => true
  | _ :: _, [] => false
  | a :: as, b :: bs =>
    if a.toNat < b.toNat then true
    else if b.toNat < a.toNat then false
    else strLtb as bs

/-- Insert a string into a (sorted) list of names, keeping it sorted. -/
def insertName (s : String) : List String → List String
  | [] => [s]
  | t :: ts => if strLtb t.data s.data then t :: insertName s ts else s :: t :: ts

/-- Sort names lexicographically (pandas `groupby` sorts its keys). -/
def sortNames (l : List String) : List String := l.foldr insertName []

/-- `india.dissolve(by="state_name", as_index=False)` (src line 95):
group the rows by name — pandas sorts the group keys — and merge each
group's geometries into one via the library union. -/
def dissolve {G : Type} (lib : GeomLib G) (rows : List (String × G)) :
    List (String × G) :=
  let names := sortNames (rows.map Prod.fst).dedup
  names.filterMap (fun n =>
    match rows.filter (fun r => r.1 == n) with
    | [] => Option.none
    | r :: rs => Option.some (n, rs.foldl (fun g r2 => lib.unionG g r2.2) r.2))

/-- The fill given to a region by the choropleth plot (src lines 102-117):
a numeric temperature drives the continuous `YlOrRd` color scale, a
missing value gets the `missing_kwds` flat `lightgrey` treatment. -/
inductive Fill : Type where
  | scale : ℚ → Fill
  | noData : Fill
deriving DecidableEq

/-- Fill assigned to one `temperature` cell: only numeric values are
mapped through the colormap; NaN (and null) cells take the
`missing_kwds` color. -/
def fillOf : PyVal → Fill
  | PyVal.num q => Fill.scale q
  | _ => Fill.noData

/-- `v is None` (the label guard on src line 122). -/
def isNone : PyVal → Bool
  | PyVal.none => true
  | _ => false

/-- One `ax.text` label: position (the region centroid) and text. -/
structure LabelSpec where
  x : ℚ
  y : ℚ
  text : String
deriving DecidableEq

/-- The observable output of `plot_heatmap`: the dissolved regions with
their joined temperatures, the per-region fills, the overlaid labels (at
their initial, pre-`adjust_text` positions — the decluttering pass only
nudges label y-positions, it neither adds nor removes labels), the title
and the footer. -/
structure RenderedMap (G : Type) where
  regions : List (String × G × PyVal)
  fills : List (String × Fill)
  labels : List LabelSpec
  title : String
  footer : String

/-- `plot_heatmap(temp_data, geojson_path, out_path, timestamp)`
(src lines 77-156): standardize the name column (`name`, else `st_nm`,
else raise `ValueError` naming the available columns), apply the `D&D`
rename, dissolve by name, join the snapshot by name (`Series.map`: keys
not found become NaN), plot fills with the no-data treatment for missing
values, and add one label per row whose temperature `is not None`. -/
def plot_heatmap {G : Type} (lib : GeomLib G) (temp_data : List (String × PyVal))
    (india : BoundaryData G) (timestamp : String) :
    Except PyError (RenderedMap G) :=
  let nameCol : Except PyError String :=
    if "name" ∈ india.columns then Except.ok "name"
    else if "st_nm" ∈ india.columns then Except.ok "st_nm"
    else Except.error (PyError.valueError india.columns)
  match nameCol with
  | Except.error e => Except.error e
  | Except.ok col =>
    let named : List (String × G) :=
      india.rows.map (fun r => (renameStateName ((r.props.lookup col).getD ""), r.geom))
    let dissolved := dissolve lib named
    let withTemp : List (String × G × PyVal) :=
      dissolved.map (fun r => (r.1, r.2, (temp_data.lookup r.1).getD PyVal.nan))
    Except.ok
      { regions := withTemp
        fills := withTemp.map (fun r => (r.1, fillOf r.2.2))
        labels := withTemp.filterMap (fun r =>
          if isNone r.2.2 then Option.none
          else Option.some
            { x := (lib.centroid r.2.1).1
              y := (lib.centroid r.2.1).2
              text := r.1 ++ " " ++ pyStr r.2.2 ++ "°C" })
        title := "Average Temperature by State (India)"
        footer := "Data extracted: " ++ timestamp }

-- ==========================
-- MAIN (src lines 162-205)
-- ==========================

/-- The observable side effects of one run, in program order: the
snapshot JSON overwrite, the history CSV append (with the header row it
writes when it creates the file), and the heatmap render+save. -/
inductive Event (G : Type) : Type where
  | wroteSnapshotJson : List (String × PyVal) → Event G
  | appendedHistory : Option (List String) → List PyVal → Event G
  | savedHeatmap : RenderedMap G → Event G

/-- The world one run executes against: the network outcome per region,
whether `weather_history.csv` already exists, the boundary file contents
(`Option.none` = `india.geojson` does not exist), and the two timestamps
taken by `datetime.now`. -/
structure World (G : Type) where
  net : String → NetOutcome
  historyExists : Bool
  geojson : Option (BoundaryData G)
  timestamp : String
  timestampFull : String

/-- The message of the `FileNotFoundError` raised when `india.geojson` is
absent (src line 199). -/
def geojson_missing_msg : String :=
  "india.geojson not found in data/. Please place it there."

/-- The header row `pd.DataFrame([{"timestamp": ..., **results}])` writes
when the history CSV does not exist yet: the `timestamp` column followed
by one column per collected region; no header is written when the file
exists (src lines 187-192). -/
def history_header {G : Type} (w : World G) : Option (List String) :=
  if w.historyExists then Option.none
  else Option.some ("timestamp" :: (runCollector w.net).map Prod.fst)

/-- The single data row appended to the history CSV: the localized
timestamp followed by the collected values in registry order. -/
def history_row {G : Type} (w : World G) : List PyVal :=
  PyVal.str w.timestamp :: (runCollector w.net).map Prod.snd

/-- `main()` (src lines 162-205): collect all regions, write the snapshot
JSON, append the history row, then require `india.geojson` to exist
(raising `FileNotFoundError` otherwise) and render the heatmap (which can
raise `ValueError` on an unrecognized name column).  Returns the emitted
events in order and the run's final outcome. -/
def main {G : Type} (lib : GeomLib G) (w : World G) :
    List (Event G) × Except PyError Unit :=
  let results := runCollector w.net
  let persisted : List (Event G) :=
    [Event.wroteSnapshotJson results,
     Event.appendedHistory (history_header w) (history_row w)]
  match w.geojson with
  | Option.none =>
    (persisted, Except.error (PyError.fileNotFoundError geojson_missing_msg))
  | Option.some india =>
    match plot_heatmap lib results india w.timestampFull with
    | Except.error e => (persisted, Except.error e)
    | Except.ok m => (persisted ++ [Event.savedHeatmap m], Except.ok ())

/-- Recognizer for the history-append event. -/
def isHistoryEvent {G : Type} : Event G → Bool
  | Event.appendedHistory _ _ => true
  | _ => false

/-- Recognizer for the render event. -/
def isRenderEvent {G : Type} : Event G → Bool
  | Event.savedHeatmap _ => true
  | _ => false

-- ==========================
-- Concrete inputs used by witnesses and counterexample evaluations
-- ==========================

/-- A network where every request fails at transport level. -/
def allDownNet : String → NetOutcome :=
  fun _ => NetOutcome.netError "connection refused"

/-- A network that answers 200 with a JSON body lacking
`current_weather`, so every fetch returns Python `None`. -/
def emptyWeatherNet : String → NetOutcome :=
  fun _ => NetOutcome.response 200 (Option.some (PyVal.dict []))

/-- A trivial geometry library over a unit geometry type. -/
def unitLib : GeomLib Unit :=
  { unionG := fun _ _ => (), centroid := fun _ => (0, 0) }

/-- A geometry library whose geometries are their own centroids. -/
def ptLib : GeomLib (ℚ × ℚ) :=
  { unionG := fun a _ => a, centroid := fun g => g }

/-- A world with every fetch failing, no pre-existing history file and no
boundary file. -/
def w0 : World Unit :=
  { net := allDownNet
    historyExists := false
    geojson := Option.none
    timestamp := "2024-01-01 10:00:00"
    timestampFull := "2024-01-01 10:00:00 IST" }

/-- A world whose boundary dataset has neither a `name` nor an `st_nm`
column. -/
def w2 : World Unit :=
  { net := allDownNet
    historyExists := true
    geojson := Option.some { columns := ["geometry"], rows := [] }
    timestamp := "2024-01-01 10:00:00"
    timestampFull := "2024-01-01 10:00:00 IST" }

/-- A snapshot carrying one numeric reading (Kerala) and one missing
sentinel (Punjab). -/
def heatTempData : List (String × PyVal) :=
  [("Kerala", PyVal.num (mkRat 57 2)), ("Punjab", PyVal.nan)]

/-- A boundary dataset with a `name` column and one polygon each for
Kerala and Punjab. -/
def heatBoundary : BoundaryData (ℚ × ℚ) :=
  { columns := ["name"]
    rows := [{ props := [("name", "Kerala")], geom := (76.27, 10.85) },
             { props := [("name", "Punjab")], geom := (75.34, 31.14) }] }

-- ==========================
-- Helper lemmas
-- ==========================

/-- The result component of the fetcher does not depend on the
coordinates. -/
theorem get_current_temp_fst (lat lon : ℚ) (net : NetOutcome) :
    (get_current_temp lat lon net).1 = fetch_outcome net := rfl

/-- The snapshot's key list is exactly the registry's name list. -/
theorem runCollector_keys (net : String → NetOutcome) :
    (runCollector net).map Prod.fst = STATE_CENTROIDS.map Prod.fst := rfl

/-- The snapshot has one entry per registry entry. -/
theorem runCollector_length (net : String → NetOutcome) :
    (runCollector net).length = STATE_CENTROIDS.length := by
  simp [runCollector]

/-- A fetch exception is recorded as the missing sentinel. -/
theorem collectOne_error (s : String) (e : PyError) :
    collectOne s (Except.error e) = PyVal.nan := rfl

/-- A `None` fetch result ends up recorded as the missing sentinel. -/
theorem collectOne_none (s : String) :
    collectOne s (Except.ok PyVal.none) = PyVal.nan := rfl

/-- A numeric fetch result is recorded as-is. -/
theorem collectOne_num (s : String) (q : ℚ) :
    collectOne s (Except.ok (PyVal.num q)) = PyVal.num q := rfl

/-- When the boundary dataset has a recognized name column,
`plot_heatmap` succeeds. -/
theorem plot_heatmap_ok {G : Type} (lib : GeomLib G)
    (td : List (String × PyVal)) (india : BoundaryData G) (ts : String)
    (h : "name" ∈ india.columns ∨ "st_nm" ∈ india.columns) :
    ∃ m, plot_heatmap lib td india ts = Except.ok m := by
  unfold plot_heatmap
  by_cases hn : "name" ∈ india.columns
  · rw [if_pos hn]
    exact ⟨_, rfl⟩
  · have hs : "st_nm" ∈ india.columns := h.resolve_left hn
    rw [if_neg hn, if_pos hs]
    exact ⟨_, rfl⟩

/-- When the boundary dataset has neither recognized name column,
`plot_heatmap` raises the `ValueError` carrying the available columns. -/
theorem plot_heatmap_err {G : Type} (lib : GeomLib G)
    (td : List (String × PyVal)) (india : BoundaryData G) (ts : String)
    (h1 : "name" ∉ india.columns) (h2 : "st_nm" ∉ india.columns) :
    plot_heatmap lib td india ts =
      Except.error (PyError.valueError india.columns) := by
  unfold plot_heatmap
  rw [if_neg h1, if_neg h2]

/-- `main` with a missing boundary file: both persistence events have
happened and the run ends with the `FileNotFoundError`. -/
theorem main_geojson_missing {G : Type} (lib : GeomLib G) (w : World G)
    (h : w.geojson = Option.none) :
    main lib w =
      ([Event.wroteSnapshotJson (runCollector w.net),
        Event.appendedHistory (history_header w) (history_row w)],
       Except.error (PyError.fileNotFoundError geojson_missing_msg)) := by
  unfold main
  rw [h]

/-- `main` when the boundary file exists but `plot_heatmap` raises. -/
theorem main_plot_error {G : Type} (lib : GeomLib G) (w : World G)
    (india : BoundaryData G) (e : PyError) (hg : w.geojson = Option.some india)
    (hp : plot_heatmap lib (runCollector w.net) india w.timestampFull =
      Except.error e) :
    main lib w =
      ([Event.wroteSnapshotJson (runCollector w.net),
        Event.appendedHistory (history_header w) (history_row w)],
       Except.error e) := by
  unfold main
  rw [hg]
  simp only [hp]

/-- `main` when the boundary file exists and `plot_heatmap` succeeds. -/
theorem main_plot_ok {G : Type} (lib : GeomLib G) (w : World G)
    (india : BoundaryData G) (m : RenderedMap G) (hg : w.geojson = Option.some india)
    (hp : plot_heatmap lib (runCollector w.net) india w.timestampFull =
      Except.ok m) :
    main lib w =
      ([Event.wroteSnapshotJson (runCollector w.net),
        Event.appendedHistory (history_header w) (history_row w),
        Event.savedHeatmap m],
       Except.ok ()) := by
  unfold main
  rw [hg]
  simp only [hp]
  rfl

/-- In every run the event trace starts with the snapshot write followed
by the history append. -/
theorem main_events_shape {G : Type} (lib : GeomLib G) (w : World G) :
    ∃ rest, (main lib w).1 =
      Event.wroteSnapshotJson (runCollector w.net) ::
      Event.appendedHistory (history_header w) (history_row w) :: rest := by
  rcases hg : w.geojson with _ | india
  · exact ⟨[], by rw [main_geojson_missing lib w hg]⟩
  · rcases hp : plot_heatmap lib (runCollector w.net) india w.timestampFull with e | m
    · exact ⟨[], by rw [main_plot_error lib w india e hg hp]⟩
    · exact ⟨[Event.savedHeatmap m], by rw [main_plot_ok lib w india m hg hp]⟩

/-- In every run the trace holds exactly one history-append event, the
canonical one. -/
theorem history_event_unique {G : Type} (lib : GeomLib G) (w : World G) :
    (main lib w).1.filter isHistoryEvent =
      [Event.appendedHistory (history_header w) (history_row w)] := by
  rcases hg : w.geojson with _ | india
  · rw [main_geojson_missing lib w hg]
    rfl
  · rcases hp : plot_heatmap lib (runCollector w.net) india w.timestampFull with e | m
    · rw [main_plot_error lib w india e hg hp]
      rfl
    · rw [main_plot_ok lib w india m hg hp]
      rfl

-- ==========================
-- Claim theorems
-- ==========================

/-- C1: every run's Snapshot has exactly the registry's region names as
keys — each name appears exactly once (the key list equals the registry's
name list, which has no duplicates) — and, provided the weather API
returns its temperature field as a number when it returns one at all,
every value is either a numeric temperature or the missing sentinel NaN,
however many fetches raise. -/
theorem snapshot_covers_registry (net : String → NetOutcome)
    (h : ∀ s v, fetch_outcome (net s) = Except.ok v →
      v = PyVal.none ∨ ∃ q, v = PyVal.num q) :
    (runCollector net).map Prod.fst = STATE_CENTROIDS.map Prod.fst
    ∧ (STATE_CENTROIDS.map Prod.fst).Nodup
    ∧ ∀ p ∈ runCollector net, p.2 = PyVal.nan ∨ ∃ q, p.2 = PyVal.num q := by
  refine ⟨runCollector_keys net, by decide, ?_⟩
  intro p hp
  rcases List.mem_map.mp hp with ⟨entry, _, rfl⟩
  have hval : (collectEntry net entry).2
      = collectOne entry.1 (fetch_outcome (net entry.1)) := rfl
  rw [hval]
  rcases hfo : fetch_outcome (net entry.1) with e | v
  · left
    exact collectOne_error _ _
  · rcases h entry.1 v hfo with rfl | ⟨q, rfl⟩
    · left
      exact collectOne_none _
    · right
      exact ⟨q, collectOne_num _ _⟩

/-- C1 witness: with every fetch failing, the Snapshot still has exactly
the registry's keys and all values are the sentinel or a number. -/
theorem snapshot_covers_registry_witness :
    (runCollector allDownNet).map Prod.fst = STATE_CENTROIDS.map Prod.fst
    ∧ (STATE_CENTROIDS.map Prod.fst).Nodup
    ∧ ∀ p ∈ runCollector allDownNet, p.2 = PyVal.nan ∨ ∃ q, p.2 = PyVal.num q :=
  snapshot_covers_registry allDownNet (fun _ _ h => nomatch h)

/-- C2: a region whose fetch raises is recorded as NaN; the loop still
produces an entry for every registry region; and changing one region's
network outcome (e.g. to a failure) leaves every other region's entry
unchanged — no failure aborts the loop or disturbs later regions. -/
theorem fetch_failure_isolated (net : String → NetOutcome) (s : String)
    (h : ∃ e, fetch_outcome (net s) = Except.error e) :
    (∀ p ∈ runCollector net, p.1 = s → p.2 = PyVal.nan)
    ∧ (runCollector net).map Prod.fst = STATE_CENTROIDS.map Prod.fst
    ∧ ∀ net' : String → NetOutcome, (∀ t, t ≠ s → net' t = net t) →
        ∀ p ∈ runCollector net', p.1 ≠ s → p ∈ runCollector net := by
  obtain ⟨e, he⟩ := h
  refine ⟨?_, runCollector_keys net, ?_⟩
  · intro p hp hps
    rcases List.mem_map.mp hp with ⟨entry, _, rfl⟩
    have h1 : entry.1 = s := hps
    show collectOne entry.1 (get_current_temp entry.2.1 entry.2.2 (net entry.1)).1
          = PyVal.nan
    rw [get_current_temp_fst, h1, he]
    exact collectOne_error _ _
  · intro net' hagree p hp hps
    rcases List.mem_map.mp hp with ⟨entry, hentry, rfl⟩
    have h1 : entry.1 ≠ s := hps
    have h2 : collectEntry net' entry = collectEntry net entry := by
      unfold collectEntry
      rw [hagree entry.1 h1]
    rw [h2]
    exact List.mem_map.mpr ⟨entry, hentry, rfl⟩

/-- C2 witness: with every fetch failing, Kerala is recorded as NaN and
no other region's entry depends on Kerala's outcome. -/
theorem fetch_failure_isolated_witness :
    (∀ p ∈ runCollector allDownNet, p.1 = "Kerala" → p.2 = PyVal.nan)
    ∧ (runCollector allDownNet).map Prod.fst = STATE_CENTROIDS.map Prod.fst
    ∧ ∀ net' : String → NetOutcome, (∀ t, t ≠ "Kerala" → net' t = allDownNet t) →
        ∀ p ∈ runCollector net', p.1 ≠ "Kerala" → p ∈ runCollector allDownNet :=
  fetch_failure_isolated allDownNet "Kerala"
    ⟨PyError.requestException "connection refused", rfl⟩

/-- C4: when every fetch raises, every Snapshot value is the missing
sentinel NaN, and the run still performs both persistence writes — the
snapshot JSON overwrite and the history CSV append both appear in the
run's event trace. -/
theorem all_fail_run_completes {G : Type} (lib : GeomLib G) (w : World G)
    (h : ∀ s, ∃ e, fetch_outcome (w.net s) = Except.error e) :
    (∀ p ∈ runCollector w.net, p.2 = PyVal.nan)
    ∧ Event.wroteSnapshotJson (runCollector w.net) ∈ (main lib w).1
    ∧ Event.appendedHistory (history_header w) (history_row w) ∈ (main lib w).1 := by
  obtain ⟨rest, hr⟩ := main_events_shape lib w
  refine ⟨?_, ?_, ?_⟩
  · intro p hp
    rcases List.mem_map.mp hp with ⟨entry, _, rfl⟩
    obtain ⟨e, he⟩ := h entry.1
    show collectOne entry.1 (get_current_temp entry.2.1 entry.2.2 (w.net entry.1)).1
          = PyVal.nan
    rw [get_current_temp_fst, he]
    exact collectOne_error _ _
  · rw [hr]
    exact List.mem_cons_self _ _
  · rw [hr]
    exact List.mem_cons_of_mem _ (List.mem_cons_self _ _)

/-- C4 witness: in the all-failures world the Snapshot is all-NaN and
both persistence events are in the trace. -/
theorem all_fail_run_completes_witness :
    (∀ p ∈ runCollector w0.net, p.2 = PyVal.nan)
    ∧ Event.wroteSnapshotJson (runCollector w0.net) ∈ (main unitLib w0).1
    ∧ Event.appendedHistory (history_header w0) (history_row w0) ∈ (main unitLib w0).1 :=
  all_fail_run_completes unitLib w0
    (fun _ => ⟨PyError.requestException "connection refused", rfl⟩)

/-- C5: each run appends exactly one history row; that row has
1 + (number of registry regions) columns; and a header row (timestamp
column plus one column per region) is written exactly when the history
file did not exist before the run. -/
theorem history_append_exactly_one {G : Type} (lib : GeomLib G) (w : World G) :
    ((main lib w).1.filter isHistoryEvent).length = 1
    ∧ ∀ hdr row, Event.appendedHistory hdr row ∈ (main lib w).1 →
        row.length = 1 + STATE_CENTROIDS.length
        ∧ hdr = (if w.historyExists then Option.none
                 else Option.some ("timestamp" :: STATE_CENTROIDS.map Prod.fst)) := by
  have hf := history_event_unique lib w
  constructor
  · rw [hf]
    rfl
  · intro hdr row hmem
    have hmem2 : Event.appendedHistory hdr row ∈ (main lib w).1.filter isHistoryEvent :=
      List.mem_filter.mpr ⟨hmem, rfl⟩
    rw [hf] at hmem2
    have heq := List.mem_singleton.mp hmem2
    cases heq
    constructor
    · show (history_row w).length = 1 + STATE_CENTROIDS.length
      simp [history_row, runCollector, Nat.add_comm]
    · rfl

/-- C5 witness: in a run with no pre-existing history file there is one
append, its row has 1 + 36 columns and the header names timestamp plus
the registry regions. -/
theorem history_append_exactly_one_witness :
    ((main unitLib w0).1.filter isHistoryEvent).length = 1
    ∧ (history_row w0).length = 1 + STATE_CENTROIDS.length
    ∧ history_header w0 =
        Option.some ("timestamp" :: STATE_CENTROIDS.map Prod.fst) := by
  have h := history_append_exactly_one unitLib w0
  have h2 := h.2 (history_header w0) (history_row w0)
    (List.Mem.tail _ (List.Mem.head _))
  exact ⟨h.1, h2.1, h2.2⟩

/-- C6: the region-name rename mapping (sending the long union-territory
name to `D&D`) is idempotent: applying it twice equals applying it
once, for every input name. -/
theorem rename_idempotent :
    ∀ s, renameStateName (renameStateName s) = renameStateName s := by
  intro s
  by_cases h : s = "Dadra and Nagar Haveli and Daman and Diu"
  · subst h
    decide
  · have h1 : renameStateName s = s := if_neg h
    rw [h1, h1]

/-- C7: the run succeeds exactly when the boundary file exists and has a
recognized name column; a missing boundary file raises the
`FileNotFoundError`, a boundary dataset with neither a `name` nor an
`st_nm` column raises the `ValueError` carrying the available columns;
and whenever the run fails, no render event has occurred. -/
theorem fatal_failure_cases {G : Type} (lib : GeomLib G) (w : World G) :
    ((main lib w).2 = Except.ok () ↔
       ∃ b, w.geojson = Option.some b ∧ ("name" ∈ b.columns ∨ "st_nm" ∈ b.columns))
    ∧ (w.geojson = Option.none →
       (main lib w).2 = Except.error (PyError.fileNotFoundError geojson_missing_msg))
    ∧ (∀ b, w.geojson = Option.some b → "name" ∉ b.columns → "st_nm" ∉ b.columns →
       (main lib w).2 = Except.error (PyError.valueError b.columns))
    ∧ (∀ e, (main lib w).2 = Except.error e →
       ∀ ev ∈ (main lib w).1, isRenderEvent ev = false) := by
  rcases hg : w.geojson with _ | india
  · rw [main_geojson_missing lib w hg]
    refine ⟨?_, fun _ => rfl, ?_, ?_⟩
    · constructor
      · intro hok
        exact absurd hok (by simp)
      · rintro ⟨b, hb, _⟩
        exact absurd hb (by simp)
    · intro b hb
      exact absurd hb (by simp)
    · intro e _ ev hev
      simp only [List.mem_cons, List.not_mem_nil, or_false] at hev
      rcases hev with rfl | rfl
      · rfl
      · rfl
  · by_cases hcols : "name" ∈ india.columns ∨ "st_nm" ∈ india.columns
    · obtain ⟨m, hp⟩ := plot_heatmap_ok lib (runCollector w.net) india w.timestampFull hcols
      rw [main_plot_ok lib w india m hg hp]
      refine ⟨?_, ?_, ?_, ?_⟩
      · exact ⟨fun _ => ⟨india, rfl, hcols⟩, fun _ => rfl⟩
      · intro hn
        exact absurd hn (by simp)
      · intro b hb h1 h2
        cases hb
        rcases hcols with hc | hc
        · exact absurd hc h1
        · exact absurd hc h2
      · intro e he
        exact absurd he (by simp)
    · rw [not_or] at hcols
      have hp := plot_heatmap_err lib (runCollector w.net) india w.timestampFull
        hcols.1 hcols.2
      rw [main_plot_error lib w india _ hg hp]
      refine ⟨?_, ?_, ?_, ?_⟩
      · constructor
        · intro hok
          exact absurd hok (by simp)
        · rintro ⟨b, hb, hc⟩
          cases hb
          rcases hc with hc | hc
          · exact absurd hc hcols.1
          · exact absurd hc hcols.2
      · intro hn
        exact absurd hn (by simp)
      · intro b hb _ _
        cases hb
        rfl
      · intro e _ ev hev
        simp only [List.mem_cons, List.not_mem_nil, or_false] at hev
        rcases hev with rfl | rfl
        · rfl
        · rfl

/-- C7 witness: a boundary dataset with only a `geometry` column makes
the run fail with the `ValueError` naming that column list. -/
theorem fatal_failure_cases_witness :
    (main unitLib w2).2 = Except.error (PyError.valueError ["geometry"]) :=
  (fatal_failure_cases unitLib w2).2.2.1 { columns := ["geometry"], rows := [] }
    rfl (by decide) (by decide)

/-- C3 (evaluation of the code at the failing input): with Kerala at
28.5 °C and Punjab missing (NaN), the rendered map gives Punjab the
no-data grey fill — yet still draws a text label `Punjab nan°C` for it,
because the guard `row["temperature"] is not None` does not exclude NaN;
the claim/spec say a missing region gets no label. -/
theorem label_drawn_for_missing_region :
    (plot_heatmap ptLib heatTempData heatBoundary "2024-01-01 10:00:00 IST").toOption.map
        (fun m => (m.labels.map LabelSpec.text, m.fills)) =
      Option.some (["Kerala 28.5°C", "Punjab nan°C"],
        [("Kerala", Fill.scale (mkRat 57 2)), ("Punjab", Fill.noData)]) := by
  decide

/-- C8: for any coordinates, the fetcher issues exactly one HTTP request
(no retry) and: surfaces a transport error as an exception; raises on a
4xx/5xx status; raises on a non-JSON body; returns Python `None` when the
decoded body lacks the current-conditions key; and returns the nested
`temperature` field (or `None` when that field is absent) otherwise. -/
theorem fetcher_cases (lat lon : ℚ) (net : NetOutcome) :
    (get_current_temp lat lon net).2 =
      [{ latitude := lat, longitude := lon, current_weather := "true", timezone := "auto" }]
    ∧ (∀ m, net = NetOutcome.netError m →
        (get_current_temp lat lon net).1 = Except.error (PyError.requestException m))
    ∧ (∀ st body, net = NetOutcome.response st body → 400 ≤ st → st ≤ 599 →
        (get_current_temp lat lon net).1 = Except.error (PyError.httpStatusError st))
    ∧ (∀ st, net = NetOutcome.response st Option.none → ¬(400 ≤ st ∧ st ≤ 599) →
        (get_current_temp lat lon net).1 = Except.error PyError.jsonDecodeError)
    ∧ (∀ st fields, net = NetOutcome.response st (Option.some (PyVal.dict fields)) →
        ¬(400 ≤ st ∧ st ≤ 599) → fields.lookup "current_weather" = Option.none →
        (get_current_temp lat lon net).1 = Except.ok PyVal.none)
    ∧ (∀ st fields cwFields,
        net = NetOutcome.response st (Option.some (PyVal.dict fields)) →
        ¬(400 ≤ st ∧ st ≤ 599) →
        fields.lookup "current_weather" = Option.some (PyVal.dict cwFields) →
        (get_current_temp lat lon net).1 =
          Except.ok ((cwFields.lookup "temperature").getD PyVal.none)) := by
  refine ⟨rfl, ?_, ?_, ?_, ?_, ?_⟩
  · rintro m rfl
    rfl
  · rintro st body rfl h1 h2
    show (if 400 ≤ st ∧ st ≤ 599 then _ else _) = _
    rw [if_pos ⟨h1, h2⟩]
  · rintro st rfl hno
    show (if 400 ≤ st ∧ st ≤ 599 then _ else _) = _
    rw [if_neg hno]
  · rintro st fields rfl hno hcw
    show (if 400 ≤ st ∧ st ≤ 599 then _ else _) = _
    rw [if_neg hno]
    simp only [hcw]
  · rintro st fields cwFields rfl hno hcw
    show (if 400 ≤ st ∧ st ≤ 599 then _ else _) = _
    rw [if_neg hno]
    simp only [hcw]

/-- C8 witness: a transport failure issues one request and surfaces the
exception. -/
theorem fetcher_cases_witness :
    (get_current_temp 1 2 (NetOutcome.netError "timeout")).2 =
      [{ latitude := 1, longitude := 2, current_weather := "true", timezone := "auto" }]
    ∧ (get_current_temp 1 2 (NetOutcome.netError "timeout")).1 =
        Except.error (PyError.requestException "timeout") :=
  ⟨(fetcher_cases 1 2 (NetOutcome.netError "timeout")).1,
   (fetcher_cases 1 2 (NetOutcome.netError "timeout")).2.1 "timeout" rfl⟩

/-- C9: when a fetch succeeds but returns `None` (temperature field
absent), the collector records NaN for that region, not `None`: the
progress print's `>6` format spec raises `TypeError` on `None` inside the
try block after the `None` was stored, and the except branch overwrites
the entry with `math.nan` — the per-iteration assignment sequence is
`[None, nan]`. -/
theorem none_result_recorded_nan (net : String → NetOutcome) (s : String)
    (hmem : s ∈ STATE_CENTROIDS.map Prod.fst)
    (hfetch : fetch_outcome (net s) = Except.ok PyVal.none) :
    (∃ p ∈ runCollector net, p.1 = s)
    ∧ (∀ p ∈ runCollector net, p.1 = s → p.2 = PyVal.nan)
    ∧ print_line s PyVal.none = Except.error PyError.typeError
    ∧ loop_body_assignments s (Except.ok PyVal.none) = [PyVal.none, PyVal.nan] := by
  refine ⟨?_, ?_, rfl, rfl⟩
  · rcases List.mem_map.mp hmem with ⟨entry, hentry, rfl⟩
    exact ⟨collectEntry net entry, List.mem_map.mpr ⟨entry, hentry, rfl⟩, rfl⟩
  · intro p hp hps
    rcases List.mem_map.mp hp with ⟨entry, _, rfl⟩
    have h1 : entry.1 = s := hps
    show collectOne entry.1 (get_current_temp entry.2.1 entry.2.2 (net entry.1)).1
          = PyVal.nan
    rw [get_current_temp_fst, h1, hfetch]
    exact collectOne_none _

/-- C9 witness: against a 200 response whose body lacks
`current_weather`, Kerala's entry ends up NaN, via the `TypeError`. -/
theorem none_result_recorded_nan_witness :
    (∃ p ∈ runCollector emptyWeatherNet, p.1 = "Kerala")
    ∧ (∀ p ∈ runCollector emptyWeatherNet, p.1 = "Kerala" → p.2 = PyVal.nan)
    ∧ print_line "Kerala" PyVal.none = Except.error PyError.typeError
    ∧ loop_body_assignments "Kerala" (Except.ok PyVal.none) = [PyVal.none, PyVal.nan] :=
  none_result_recorded_nan emptyWeatherNet "Kerala" (by decide) rfl

/-- C10: when `india.geojson` is missing, the run aborts with the
`FileNotFoundError`, but its event trace already holds both persistence
writes — the snapshot JSON overwrite and the history CSV append — and
nothing else: both persistence outputs were updated before the fatal
boundary-file check. -/
theorem persistence_precedes_boundary_check {G : Type} (lib : GeomLib G)
    (w : World G) (h : w.geojson = Option.none) :
    (main lib w).1 =
      [Event.wroteSnapshotJson (runCollector w.net),
       Event.appendedHistory (history_header w) (history_row w)]
    ∧ (main lib w).2 = Except.error (PyError.fileNotFoundError geojson_missing_msg) := by
  rw [main_geojson_missing lib w h]
  exact ⟨rfl, rfl⟩

/-- C10 witness: in the concrete no-boundary-file world the run errors
after emitting exactly the two persistence events. -/
theorem persistence_precedes_boundary_check_witness :
    (main unitLib w0).1 =
      [Event.wroteSnapshotJson (runCollector w0.net),
       Event.appendedHistory (history_header w0) (history_row w0)]
    ∧ (main unitLib w0).2 = Except.error (PyError.fileNotFoundError geojson_missing_msg) :=
  persistence_precedes_boundary_check unitLib w0 rfl

end WeatherApi
